import Mathlib

/-!
Shallow embedding of Stage 1 of the takeover migrator
(src/src/migrator/stage1.rs), developed to check the repository's
natural-language specification against the code.

Rust paths are modelled as lists of path components (Rust
Path::starts_with is a component-wise test), machine integers as Nat
(sizes never overflow u64 in the comparisons modelled here), and
fallible operations as Except values.  Ambient system behaviour
(command results, file sizes, mount success) is supplied by an
explicit environment record so every definition is executable.
-/

namespace Takeover

/-- Component-wise path comparison: `pathLe a b` holds when the path
`a` is an initial segment of the path `b`.  This models Rust
Path::starts_with (the code writes `mpoint.mountpoint.starts_with m`,
which tests that `m` is an initial segment of `mpoint.mountpoint`). -/
def pathLe : List String → List String → Bool
  | [], _ => true
  | _ :: _, [] => false
  | a :: as, b :: bs => a == b && pathLe as bs

/-- Strict component-wise path comparison: an initial segment that is
not the whole path. -/
def pathLt (a b : List String) : Bool :=
  pathLe a b && !(a == b)

/-- One entry of the Stage-2 unmount plan (UmountPart in
common/stage2_config.rs): device path, mount point, filesystem type. -/
structure UmountPart where
  devName : String
  mountpoint : List String
  fsType : String
deriving DecidableEq

/-- Current mount information of a block device: mount point and
filesystem type. -/
structure MountInfo where
  mountpoint : List String
  fsType : String
deriving DecidableEq

/-- One block device of the inventory: stable name, device path, an
optional back-reference to a parent device (a key into the inventory
mapping, present iff the device is a partition), and optional current
mount information.  Modelled from the spec: the block_device_info
module is not under src; spec section 3 defines the Device record and
section 9 fixes the parent relation as an identifier-based lookup. -/
structure Device where
  name : String
  devPath : String
  parent : Option String
  mount : Option MountInfo
deriving DecidableEq

/-- The block-device inventory: a mapping from device path to Device
plus a designated root device.  Modelled from the spec (section 3);
the devices are kept as an association list whose order is the walk
order of the planner loop. -/
structure BlockDeviceInfo where
  devices : List (String × Device)
  rootDevice : Device
deriving DecidableEq

/-- Look a device up in the inventory mapping by its device path. -/
def lookupDevice (bdi : BlockDeviceInfo) (path : String) : Option Device :=
  (bdi.devices.find? (fun kv => kv.1 == path)).map (fun kv => kv.2)

/-- Resolve the parent back-reference of a device to the parent's
stable name (device.get_parent().get_name() in stage1.rs line 363). -/
def parentNameOf (bdi : BlockDeviceInfo) (d : Device) : Option String :=
  match d.parent with
  | none => none
  | some key => (lookupDevice bdi key).map (fun p => p.name)

/-- Insertion step of the unmount-plan builder, stage1.rs lines
366-387: walk the accumulated list and insert the new entry
immediately before the first existing entry `q` with
`q.mountpoint.starts_with p.mountpoint`; append when no entry
qualifies. -/
def insertUmountPart : List UmountPart → UmountPart → List UmountPart
  | [], p => [p]
  | q :: rest, p =>
    if pathLe p.mountpoint q.mountpoint then p :: q :: rest
    else q :: insertUmountPart rest p

/-- The fold step of the planner loop, stage1.rs lines 360-391: a
device contributes an UmountPart exactly when its parent resolves to
the flash device's name and it is currently mounted. -/
def umountPlanStep (bdi : BlockDeviceInfo) (flashName : String)
    (acc : List UmountPart) (kv : String × Device) : List UmountPart :=
  match parentNameOf bdi kv.2 with
  | some pname =>
    if pname == flashName then
      match kv.2.mount with
      | some m =>
        insertUmountPart acc
          { devName := kv.2.devPath, mountpoint := m.mountpoint, fsType := m.fsType }
      | none => acc
    else acc
  | none => acc

/-- The unmount plan written into the Stage2Config, stage1.rs lines
358-392: walk every device of the inventory, insert the mounted
partitions of the flash device, and reverse the list after the walk. -/
def umountPlan (bdi : BlockDeviceInfo) (flashName : String) : List UmountPart :=
  (bdi.devices.foldl (umountPlanStep bdi flashName) []).reverse

/-- Insertion step as claim C2 words it: insert the new entry
immediately before the first existing entry whose mount point is an
initial segment of the new entry's mount point. -/
def insertUmountPartClaim : List UmountPart → UmountPart → List UmountPart
  | [], p => [p]
  | q :: rest, p =>
    if pathLe q.mountpoint p.mountpoint then p :: q :: rest
    else q :: insertUmountPartClaim rest p

/-- Planner fold step using the claim C2 insertion rule. -/
def umountPlanClaimStep (bdi : BlockDeviceInfo) (flashName : String)
    (acc : List UmountPart) (kv : String × Device) : List UmountPart :=
  match parentNameOf bdi kv.2 with
  | some pname =>
    if pname == flashName then
      match kv.2.mount with
      | some m =>
        insertUmountPartClaim acc
          { devName := kv.2.devPath, mountpoint := m.mountpoint, fsType := m.fsType }
      | none => acc
    else acc
  | none => acc

/-- Unmount plan built with the claim C2 insertion rule. -/
def umountPlanClaim (bdi : BlockDeviceInfo) (flashName : String) : List UmountPart :=
  (bdi.devices.foldl (umountPlanClaimStep bdi flashName) []).reverse

/-- The amended insertion rule stated the spec's way: find the first
existing entry whose mount point the new mount point leads into (the
new mount point is an initial segment of it) and insert the new entry
immediately before it; when no entry qualifies the insertion position
is the length of the list, an append. -/
def insertBeforeFirstDeeper (parts : List UmountPart) (p : UmountPart) :
    List UmountPart :=
  let i := parts.findIdx (fun q => pathLe p.mountpoint q.mountpoint)
  parts.take i ++ p :: parts.drop i

/-- The ordering invariant kept by the walk, before the final
reversal: no entry's mount point is a strict initial segment of an
EARLIER entry's mount point. -/
def preInv (l : List UmountPart) : Prop :=
  l.Pairwise (fun a b => pathLt b.mountpoint a.mountpoint = false)

/-- The final ordering invariant of the produced plan: no entry's
mount point is a strict initial segment of a LATER entry's mount
point (deepest mounts first, up to equal mount points). -/
def noShadow (l : List UmountPart) : Prop :=
  l.Pairwise (fun a b => pathLt a.mountpoint b.mountpoint = false)

/-! ## Execution model of prepare and stage1

stage1.rs performs a strictly sequential series of system effects.
Each effect that succeeds is recorded as an `Event`; the mount stack
of MigrateInfo is threaded alongside so that cleanup (umount_all) can
be modelled.  The ambient system (command results, file sizes, mount
outcomes) is an explicit `Env` record, so a run of `prepare` is a
pure computation. -/

/-- Result of a launched external command: exit status and stderr
(common::call, used for swapoff, cp, mount --bind and telinit). -/
structure CmdRes where
  success : Bool
  stderr : String
deriving DecidableEq

/-- Stage-1 error values.  The code returns MigError::displayed()
after logging a user-facing message (the message identifies the
failing branch, so the model carries it in the error), and
context-wrapped upstream errors for propagated I/O failures. -/
inductive MigError where
  | displayed (msg : String)
  | upstream (msg : String)
deriving DecidableEq

/-- One Wi-Fi SSID+PSK record (wifi_config module). -/
structure Wifi where
  ssid : String
  psk : String
deriving DecidableEq

/-- The CLI options consumed by Stage 1 (common::options::Options). -/
structure Options where
  image : Option String
  config : Option String
  nwmgrCfg : List String
  flashTo : Option String
  logTo : Option String
  pretend : Bool
  flashExternal : Bool
deriving DecidableEq

/-- Session state relevant to the modelled code paths of stage1.rs:
artifact paths, Wi-Fi records, the busybox size held by the asset
store and the log level (migrate_info module; fields follow spec
section 3). -/
structure MigrateInfo where
  imagePath : String
  configPath : String
  nwmgrFiles : List String
  wifis : List Wifi
  busyboxSize : Nat
  logLevel : String
deriving DecidableEq

/-- The serialized Stage-2 handoff (common::stage2_config). -/
structure Stage2Config where
  logDev : Option String
  logLevel : String
  flashDev : String
  pretend : Bool
  umountParts : List UmountPart
  flashExternal : Bool
deriving DecidableEq

/-- Observable system effects of a Stage-1 run, in program order. -/
inductive Event where
  | swapoffAttempt
  | mkdirEv (path : String)
  | mountEv (mountpoint fsType : String)
  | symlinkEv (target linkPath : String)
  | copyEv (src dst : String)
  | writeFileEv (path : String)
  | stage2CfgEv (cfg : Stage2Config)
  | bindMountEv (src dst : String)
  | telinitEv
  | umountEv (mountpoint : String)
  | syncEv
deriving DecidableEq

/-- Accumulated run state: the MigrateInfo mount stack (innermost
mount at the head, as mount_fs pushes) and the event trace. -/
structure Acc where
  stack : List (String × String)
  events : List Event
deriving DecidableEq

/-- The ambient system a Stage-1 run interacts with.  Each field is
the outcome the kernel or an external command would give at the one
program point that consults it. -/
structure Env where
  swapoffRes : Except Unit CmdRes
  memInfoRes : Except Unit (Nat × Nat)
  fileExists : String → Bool
  fileSize : String → Except Unit Nat
  currentExe : Except Unit String
  mktempRes : Except Unit String
  mountOk : String → String → Bool
  createDirOk : String → Bool
  symlinkOk : Bool
  cpDevRes : Except Unit CmdRes
  removeDirOk : Bool
  assetsWriteOk : Bool
  copyOk : String → String → Bool
  wifiWriteOk : Bool
  readlinkFd1 : Except Unit String
  readlinkInit : Except Unit String
  stage2ScriptOk : Bool
  blockDevRes : Except Unit BlockDeviceInfo
  serializeRes : Except Unit String
  openCfgOk : Bool
  writeCfgOk : Bool
  setCurrentDirOk : Bool
  bindMountRes : Except Unit CmdRes
  telinitRes : Except Unit CmdRes
  migInfoRes : Except MigError MigrateInfo

/-- A sequential Stage-1 computation: threads the accumulated state
and stops at the first error, keeping the state reached so far (the
effects of a failed run are what cleanup must unwind). -/
def Step (α : Type) : Type := Acc → Except MigError α × Acc

instance : Monad Step where
  pure a := fun s => (Except.ok a, s)
  bind m f := fun s =>
    match m s with
    | (Except.ok a, s1) => f a s1
    | (Except.error e, s1) => (Except.error e, s1)

/-- Abort the run with an error, keeping the effects so far. -/
def Step.fail {α : Type} (e : MigError) : Step α :=
  fun s => (Except.error e, s)

/-- Record an observable effect. -/
def Step.emit (e : Event) : Step Unit :=
  fun s => (Except.ok (), { s with events := s.events ++ [e] })

/-- Lift an ambient-system outcome, wrapping its failure the way the
code's context! wrapper does. -/
def Step.ofRes {α : Type} (msg : String) : Except Unit α → Step α
  | Except.error _ => Step.fail (MigError.upstream msg)
  | Except.ok a => pure a

/-- Path concatenation (path_append / Path::join on already relative
segments). -/
def pjoin (a b : String) : String := a ++ "/" ++ b

/-- The final path component (Path::file_name of the old init path,
stage1.rs line 330). -/
def basename (s : String) : String :=
  match (s.splitOn "/").getLast? with
  | some last => last
  | none => s

/-- Modelled from the spec: the path constants of common::defs
(TRANSFER_DIR, BALENA_IMAGE_NAME, BALENA_CONFIG_PATH,
SYSTEM_CONNECTIONS_DIR, OLD_ROOT_MP, STAGE2_CONFIG_NAME are declared
in modules not under src); spec section 6 fixes the layout under the
tmpfs root, the concrete strings stand in for the constants. -/
def TRANSFER_DIR : String := "transfer"

/-- Modelled from the spec: see TRANSFER_DIR. -/
def BALENA_IMAGE_NAME : String := "balena.img"

/-- Modelled from the spec: see TRANSFER_DIR. -/
def BALENA_CONFIG_PATH : String := "config.json"

/-- Modelled from the spec: see TRANSFER_DIR. -/
def SYSTEM_CONNECTIONS_DIR : String := "system-connections"

/-- Modelled from the spec: see TRANSFER_DIR. -/
def OLD_ROOT_MP : String := "mnt/old_root"

/-- Modelled from the spec: see TRANSFER_DIR. -/
def STAGE2_CONFIG_NAME : String := "stage2-config.yml"

/-- The 10 MiB slack constant XTRA_FS_SIZE, stage1.rs line 48. -/
def XTRA_FS_SIZE : Nat := 10 * 1024 * 1024

/-- Sum of the on-disk sizes of the network-manager config files,
stage1.rs lines 90-98 (each metadata call may fail; the caller wraps
the failure with its context message). -/
def sizesOf (env : Env) : List String → Except Unit Nat
  | [] => Except.ok 0
  | f :: rest =>
    match env.fileSize f with
    | Except.error _ => Except.error ()
    | Except.ok n =>
      match sizesOf env rest with
      | Except.error _ => Except.error ()
      | Except.ok m => Except.ok (n + m)

/-- get_required_space, stage1.rs lines 51-115: busybox size plus the
10 MiB extra, the image size (the image option and path are checked
here, errors already logged become displayed), the config size, every
network-manager file size, the current executable's size, and the
busybox size a second time. -/
def get_required_space (opts : Options) (migInfo : MigrateInfo) (env : Env) :
    Except MigError Nat :=
  match opts.image with
  | none => Except.error (MigError.displayed "Required parameter image is missing")
  | some imagePath =>
    if !(env.fileExists imagePath) then
      Except.error (MigError.displayed "Image could not be found")
    else
      match env.fileSize imagePath with
      | Except.error _ =>
        Except.error (MigError.upstream "Failed to retrieve imagesize")
      | Except.ok imageSize =>
        match opts.config with
        | none =>
          Except.error
            (MigError.displayed "The required parameter --config/-c was not provided")
        | some configPath =>
          if !(env.fileExists configPath) then
            Except.error (MigError.displayed "Config could not be found")
          else
            match env.fileSize configPath with
            | Except.error _ =>
              Except.error (MigError.upstream "Failed to retrieve file size")
            | Except.ok configSize =>
              match sizesOf env opts.nwmgrCfg with
              | Except.error _ =>
                Except.error (MigError.upstream "Failed to retrieve file size")
              | Except.ok nwmgrSize =>
                match env.currentExe with
                | Except.error _ =>
                  Except.error
                    (MigError.upstream "Failed to retrieve path of current executable")
                | Except.ok exePath =>
                  match env.fileSize exePath with
                  | Except.error _ =>
                    Except.error (MigError.upstream "Failed to retrieve file size")
                  | Except.ok exeSize =>
                    Except.ok (migInfo.busyboxSize + XTRA_FS_SIZE + imageSize +
                      configSize + nwmgrSize + exeSize + migInfo.busyboxSize)

/-- Two-digit zero-padded file name, format balena-NN of stage1.rs
line 169. -/
def balenaName (n : Nat) : String :=
  "balena-" ++ (if n < 10 then "0" ++ toString n else toString n)

/-- Modelled from the spec: wifi_config::WifiConfig::create_nwmgr_file
(the wifi_config module is not under src).  Spec sections 4.3 and 8
say each Wi-Fi record is rendered into the system-connections
directory continuing the balena-NN counter sequence from where the
network-manager files ended, so given the last used index it writes
the single file named with the next index. -/
def wifiFileNameSpec (lastIdx : Nat) : String := balenaName (lastIdx + 1)

/-- The connection file names staged by copy_files for N
network-manager files and M Wi-Fi records, for an arbitrary Wi-Fi
naming function f: the loop of stage1.rs lines 167-175 advances the
counter once per network-manager file, and the loop of lines 177-179
passes the final counter value N unchanged to every Wi-Fi record. -/
def stagedConnectionFiles (n m : Nat) (f : Nat → String) : List String :=
  ((List.range n).map (fun i => balenaName (i + 1))) ++ List.replicate m (f n)

/-- create_dir wrapped as a Step (a failed create aborts prepare). -/
def createDirStep (env : Env) (path : String) : Step Unit :=
  if env.createDirOk path then Step.emit (Event.mkdirEv path)
  else Step.fail (MigError.upstream "Failed to create directory")

/-- A file copy wrapped as a Step (std::fs::copy, context-wrapped). -/
def copyStep (env : Env) (src dst : String) : Step Unit :=
  if env.copyOk src dst then Step.emit (Event.copyEv src dst)
  else Step.fail (MigError.upstream "Failed to copy")

/-- The network-manager copy loop of stage1.rs lines 167-175:
increment the counter, then copy to balena-NN; returns the final
counter value. -/
def copyNwmgrFiles (env : Env) (nwmgrPath : String) :
    List String → Nat → Step Nat
  | [], n => pure n
  | f :: rest, n => do
    copyStep env f (pjoin nwmgrPath (balenaName (n + 1)))
    copyNwmgrFiles env nwmgrPath rest (n + 1)

/-- Modelled from the spec: one call of create_nwmgr_file writes one
file into the system-connections directory named by the counter it
receives (see wifiFileNameSpec). -/
def create_nwmgr_file (env : Env) (nwmgrPath : String) (index : Nat) :
    Step Unit :=
  if env.wifiWriteOk then
    Step.emit (Event.writeFileEv (pjoin nwmgrPath (wifiFileNameSpec index)))
  else Step.fail (MigError.upstream "Failed to write wifi config")

/-- The Wi-Fi loop of stage1.rs lines 177-179: every record receives
the same counter value, the loop never advances it. -/
def writeWifiFiles (env : Env) (nwmgrPath : String) (count : Nat) :
    List Wifi → Step Unit
  | [] => pure ()
  | _ :: rest => do
    create_nwmgr_file env nwmgrPath count
    writeWifiFiles env nwmgrPath count rest

/-- copy_files, stage1.rs lines 117-199: create transfer/, write
busybox, copy the image and the config, copy the network-manager files
with the counter, render the Wi-Fi records with the final counter
value, and copy the current executable as takeover. -/
def copy_files (migInfo : MigrateInfo) (takeoverDir : String) (env : Env) :
    Step Unit := do
  let transferDir := pjoin takeoverDir TRANSFER_DIR
  createDirStep env transferDir
  (if env.assetsWriteOk then
    Step.emit (Event.copyEv "busybox" (pjoin takeoverDir "busybox"))
   else Step.fail (MigError.upstream "Failed to write busybox"))
  copyStep env migInfo.imagePath (pjoin transferDir BALENA_IMAGE_NAME)
  copyStep env migInfo.configPath (pjoin transferDir BALENA_CONFIG_PATH)
  let nwmgrPath := pjoin transferDir SYSTEM_CONNECTIONS_DIR
  createDirStep env nwmgrPath
  let count ← copyNwmgrFiles env nwmgrPath migInfo.nwmgrFiles 0
  writeWifiFiles env nwmgrPath count migInfo.wifis
  match env.currentExe with
  | Except.error _ =>
    Step.fail (MigError.upstream "Failed to retrieve path of current executable")
  | Except.ok exePath => copyStep env exePath (pjoin takeoverDir "takeover")

/-- Modelled from the spec: utils::mount_fs (the utils module is not
under src).  Spec section 4.2: every mount is appended to
MigrateInfo's mount stack immediately after a successful mount
syscall; a failed mount aborts prepare. -/
def mount_fs (env : Env) (mountpoint fsType : String) : Step Unit :=
  fun s =>
    if env.mountOk mountpoint fsType then
      (Except.ok (),
        { stack := (mountpoint, fsType) :: s.stack,
          events := s.events ++ [Event.mountEv mountpoint fsType] })
    else (Except.error (MigError.upstream "Failed to mount"), s)

/-- The dev mount with fallback, stage1.rs lines 276-301: try
devtmpfs; on failure mount a plain tmpfs, copy the host's /dev into
it with cp -a (a launch failure propagates, a non-zero status is a
displayed error), and remove a pre-existing dev/pts directory. -/
def devPhase (env : Env) (dir : String) : Step Unit :=
  fun s =>
    match mount_fs env (pjoin dir "dev") "devtmpfs" s with
    | (Except.ok a, s1) => (Except.ok a, s1)
    | (Except.error _, _) =>
      (do
        mount_fs env (pjoin dir "dev") "tmpfs"
        (match env.cpDevRes with
         | Except.error _ => Step.fail (MigError.upstream "cp command failed")
         | Except.ok res =>
           if res.success then
             Step.emit (Event.copyEv "/dev/*" (pjoin dir "dev"))
           else Step.fail (MigError.displayed "Failed to copy /dev file system"))
        (if env.removeDirOk then pure ()
         else Step.fail (MigError.upstream "Failed to delete directory"))) s

/-- mktemp of the takeover directory, stage1.rs line 239 (a failure
is context-wrapped by the caller). -/
def mktempStep (env : Env) : Step String :=
  match env.mktempRes with
  | Except.error _ =>
    Step.fail (MigError.upstream "Failed to create temporary directory")
  | Except.ok d => pure d

/-- The staging mounts, stage1.rs lines 239-316: mktemp the takeover
directory under /, mount the root tmpfs, create etc and the mtab
symlink, mount proc, tmp, sys, dev (with fallback) and dev/pts, and
create the old-root mount point.  Returns the takeover directory. -/
def mountPhase (env : Env) : Step String := do
  let dir ← mktempStep env
  Step.emit (Event.mkdirEv dir)
  mount_fs env dir "tmpfs"
  createDirStep env (pjoin dir "etc")
  (if env.symlinkOk then
    Step.emit (Event.symlinkEv "/proc/mounts" (pjoin dir "etc/mtab"))
   else Step.fail (MigError.upstream "Failed to create symlink"))
  mount_fs env (pjoin dir "proc") "proc"
  mount_fs env (pjoin dir "tmp") "tmpfs"
  mount_fs env (pjoin dir "sys") "sysfs"
  devPhase env dir
  mount_fs env (pjoin dir "dev/pts") "devpts"
  createDirStep env (pjoin dir OLD_ROOT_MP)
  pure dir

/-- Flash-device selection, stage1.rs lines 335-347: an explicitly
named device is looked up in the inventory mapping (a miss is a
displayed error); with no --flash-to the designated root device is
chosen. -/
def selectFlashDev (opts : Options) (bdi : BlockDeviceInfo) :
    Except MigError Device :=
  match opts.flashTo with
  | some name =>
    match lookupDevice bdi name with
    | some d => Except.ok d
    | none => Except.error (MigError.displayed "Could not find configured flash device")
  | none => Except.ok bdi.rootDevice

/-- Flash-device selection lifted into a Step (stage1.rs lines
335-347, the error path returns from prepare). -/
def selectFlashStep (opts : Options) (bdi : BlockDeviceInfo) : Step Device :=
  match selectFlashDev opts bdi with
  | Except.error e => Step.fail e
  | Except.ok d => pure d

/-- The tail of prepare, stage1.rs lines 323-458: read the tty and
old-init links, write the Stage-2 shim, build the inventory, choose
and check the flash device, build the unmount plan, write the
Stage2Config, chdir into the tmpfs, bind-mount the new init over the
old one, and signal init with telinit u. -/
def finalPhase (opts : Options) (migInfo : MigrateInfo) (env : Env)
    (takeoverDir : String) : Step Unit := do
  let _tty ← Step.ofRes "Failed to read link for /proc/self/fd/1" env.readlinkFd1
  let oldInit ← Step.ofRes "Failed to read link for /proc/1/exe" env.readlinkInit
  let newInit := pjoin (pjoin takeoverDir "tmp") (basename oldInit)
  (if env.stage2ScriptOk then Step.emit (Event.writeFileEv newInit)
   else Step.fail (MigError.upstream "Failed to write stage2 script"))
  let bdi ← Step.ofRes "Failed to read block device info" env.blockDevRes
  let flashDev ← selectFlashStep opts bdi
  (if env.fileExists flashDev.devPath then pure ()
   else Step.fail (MigError.displayed "The device could not be found"))
  let parts := umountPlan bdi flashDev.name
  let cfg : Stage2Config :=
    { logDev := opts.logTo, logLevel := migInfo.logLevel,
      flashDev := flashDev.devPath, pretend := opts.pretend,
      umountParts := parts, flashExternal := opts.flashExternal }
  (if env.openCfgOk then pure ()
   else Step.fail (MigError.upstream "Failed to open stage2 config file for writing"))
  let _txt ← Step.ofRes "Failed to serialize stage2 config" env.serializeRes
  (if env.writeCfgOk then Step.emit (Event.stage2CfgEv cfg)
   else Step.fail (MigError.upstream "Failed to write stage2 config file"))
  (if env.setCurrentDirOk then pure ()
   else Step.fail (MigError.upstream "Failed to change current dir"))
  let bindRes ← Step.ofRes "mount command failed" env.bindMountRes
  (if bindRes.success then Step.emit (Event.bindMountEv newInit oldInit)
   else Step.fail (MigError.displayed "Failed to bindmount new init over old init"))
  let telinitRes ← Step.ofRes "telinit command failed" env.telinitRes
  Step.emit Event.telinitEv
  (if telinitRes.success then pure ()
   else Step.fail (MigError.displayed "Call to telinit failed"))

/-- The swap-disable check, stage1.rs lines 205-212: a launched
command with non-zero status is a displayed error; a command that
failed to launch is skipped (the if-let-Ok pattern simply falls
through). -/
def swapCheck (env : Env) : Step Unit :=
  match env.swapoffRes with
  | Except.ok res =>
    if res.success then pure ()
    else Step.fail (MigError.displayed "Failed to disable SWAP")
  | Except.error _ => pure ()

/-- The staging work after the memory gate: build the mounts, copy
the artifacts, run the final phase (stage1.rs lines 239-458). -/
def buildAndFinish (opts : Options) (migInfo : MigrateInfo) (env : Env) :
    Step Unit := do
  let dir ← mountPhase env
  copy_files migInfo dir env
  finalPhase opts migInfo env dir

/-- get_mem_info lifted into a Step (stage1.rs line 217). -/
def memInfoStep (env : Env) : Step (Nat × Nat) :=
  match env.memInfoRes with
  | Except.error _ => Step.fail (MigError.upstream "Failed to read memory info")
  | Except.ok mi => pure mi

/-- get_required_space lifted into a Step (the error path returns
from prepare, stage1.rs line 224). -/
def reqSpaceStep (opts : Options) (migInfo : MigrateInfo) (env : Env) :
    Step Nat :=
  match get_required_space opts migInfo env with
  | Except.error e => Step.fail e
  | Except.ok r => pure r

/-- Everything after the swap-disable step of prepare, stage1.rs
lines 214-458: read the memory info, compute the required space,
compare free memory against required plus XTRA_FS_SIZE, then build
and finish. -/
def prepareAfterSwap (opts : Options) (migInfo : MigrateInfo) (env : Env) :
    Step Unit := do
  let memInfo ← memInfoStep env
  let reqSpace ← reqSpaceStep opts migInfo env
  (if memInfo.2 < reqSpace + XTRA_FS_SIZE then
    Step.fail (MigError.displayed "Not enough memory space found to copy files to RAMFS")
   else pure ())
  buildAndFinish opts migInfo env

/-- prepare, stage1.rs lines 201-459: attempt the system-wide swap
disable first, then everything else. -/
def prepare (opts : Options) (migInfo : MigrateInfo) (env : Env) : Step Unit := do
  Step.emit Event.swapoffAttempt
  swapCheck env
  prepareAfterSwap opts migInfo env

/-- A run of prepare from the empty state. -/
def runPrepare (opts : Options) (migInfo : MigrateInfo) (env : Env) :
    Except MigError Unit × Acc :=
  prepare opts migInfo env { stack := [], events := [] }

/-- stage1, stage1.rs lines 461-484: require root, build MigrateInfo
(the migrate_info module is not under src; its outcome is supplied by
the environment), run prepare; on success flush, sync, sleep and
return Ok; on any prepare error run cleanup (umount_all pops the
mount stack in reverse mount order) and re-raise the error. -/
def stage1 (isAdmin : Bool) (opts : Options) (env : Env) :
    Except MigError Unit × List Event :=
  if isAdmin then
    match env.migInfoRes with
    | Except.error e => (Except.error e, [])
    | Except.ok migInfo =>
      match runPrepare opts migInfo env with
      | (Except.ok _, acc) => (Except.ok (), acc.events ++ [Event.syncEv])
      | (Except.error e, acc) =>
        (Except.error e, acc.events ++ acc.stack.map (fun m => Event.umountEv m.1))
  else (Except.error (MigError.displayed "please run this program as root"), [])

/-- The error messages of the branches the spec calls
MissingInput-class: a required path option absent or naming a file
that does not exist. -/
def isMissingInput : MigError → Bool
  | MigError.displayed m =>
    m == "Required parameter image is missing" ||
    m == "Image could not be found" ||
    m == "The required parameter --config/-c was not provided" ||
    m == "Config could not be found"
  | MigError.upstream _ => false

/-- An event that creates a directory or performs a mount. -/
def isDirOrMount : Event → Bool
  | Event.mkdirEv _ => true
  | Event.mountEv _ _ => true
  | _ => false

/-- The Stage2Config written during a run: the payload of the first
stage2CfgEv event of the trace. -/
def writtenCfg : List Event → Option Stage2Config
  | [] => none
  | Event.stage2CfgEv c :: _ => some c
  | _ :: rest => writtenCfg rest

/-! ## Concrete fixtures -/

/-- Example disk: the root device of the E3 scenario of the spec. -/
def sdaDev : Device :=
  { name := "sda", devPath := "/dev/sda", parent := none, mount := none }

/-- Example partition mounted at the filesystem root. -/
def sda1Dev : Device :=
  { name := "sda1", devPath := "/dev/sda1", parent := some "/dev/sda",
    mount := some { mountpoint := [], fsType := "ext4" } }

/-- Example partition mounted at /home. -/
def sda2Dev : Device :=
  { name := "sda2", devPath := "/dev/sda2", parent := some "/dev/sda",
    mount := some { mountpoint := ["home"], fsType := "ext4" } }

/-- Example inventory of the E3 scenario. -/
def exBdi : BlockDeviceInfo :=
  { devices := [("/dev/sda", sdaDev), ("/dev/sda1", sda1Dev), ("/dev/sda2", sda2Dev)],
    rootDevice := sdaDev }

/-- Example options. -/
def exOpts : Options :=
  { image := some "/tmp/os.img", config := some "/tmp/c.json",
    nwmgrCfg := ["/etc/nm/wired"], flashTo := none, logTo := none,
    pretend := false, flashExternal := false }

/-- Example session state. -/
def exMigInfo : MigrateInfo :=
  { imagePath := "/tmp/os.img", configPath := "/tmp/c.json",
    nwmgrFiles := ["/etc/nm/wired"], wifis := [], busyboxSize := 1000000,
    logLevel := "info" }

/-- An environment in which every ambient operation succeeds, with
the inventory as a parameter. -/
def happyEnv (bdi : BlockDeviceInfo) : Env :=
  { swapoffRes := Except.ok { success := true, stderr := "" },
    memInfoRes := Except.ok (2 ^ 34, 2 ^ 33),
    fileExists := fun _ => true,
    fileSize := fun _ => Except.ok 4096,
    currentExe := Except.ok "/usr/bin/takeover",
    mktempRes := Except.ok "/TO.AAAAAAAA",
    mountOk := fun _ _ => true,
    createDirOk := fun _ => true,
    symlinkOk := true,
    cpDevRes := Except.ok { success := true, stderr := "" },
    removeDirOk := true,
    assetsWriteOk := true,
    copyOk := fun _ _ => true,
    wifiWriteOk := true,
    readlinkFd1 := Except.ok "/dev/tty1",
    readlinkInit := Except.ok "/sbin/init",
    stage2ScriptOk := true,
    blockDevRes := Except.ok bdi,
    serializeRes := Except.ok "cfg",
    openCfgOk := true,
    writeCfgOk := true,
    setCurrentDirOk := true,
    bindMountRes := Except.ok { success := true, stderr := "" },
    telinitRes := Except.ok { success := true, stderr := "" },
    migInfoRes := Except.ok exMigInfo }

/-- An unmount event. -/
def isUmountEv : Event → Bool
  | Event.umountEv _ => true
  | _ => false

/-- Whether a trace contains a successful init bind-mount. -/
def hasBindMount (evs : List Event) : Bool :=
  evs.any (fun e =>
    match e with
    | Event.bindMountEv _ _ => true
    | _ => false)

/-- The swap-disable step lets the run continue: the command either
launched and succeeded, or failed to launch. -/
def swapPasses (env : Env) : Bool :=
  match env.swapoffRes with
  | Except.ok res => res.success
  | Except.error _ => true

/-- The image input is absent: not provided, or the named file does
not exist. -/
def imageMissing (opts : Options) (env : Env) : Bool :=
  match opts.image with
  | none => true
  | some p => !(env.fileExists p)

/-- The config input is absent: not provided, or the named file does
not exist. -/
def configMissing (opts : Options) (env : Env) : Bool :=
  match opts.config with
  | none => true
  | some p => !(env.fileExists p)

/-- The size of the provided image file is readable (the code reads
the image metadata before looking at the config option). -/
def imageSizeKnown (opts : Options) (env : Env) : Bool :=
  match opts.image with
  | none => false
  | some p =>
    match env.fileSize p with
    | Except.ok _ => true
    | Except.error _ => false

/-- Planner fold step using the amended (spec-worded) insertion. -/
def umountPlanAmendedStep (bdi : BlockDeviceInfo) (flashName : String)
    (acc : List UmountPart) (kv : String × Device) : List UmountPart :=
  match parentNameOf bdi kv.2 with
  | some pname =>
    if pname == flashName then
      match kv.2.mount with
      | some m =>
        insertBeforeFirstDeeper acc
          { devName := kv.2.devPath, mountpoint := m.mountpoint, fsType := m.fsType }
      | none => acc
    else acc
  | none => acc

/-- Unmount plan as the amended claim words it: each new entry is
inserted immediately before the first existing entry whose mount
point the new entry's mount point is an initial segment of; appended
when no such entry exists; the list is reversed after the walk. -/
def umountPlanAmended (bdi : BlockDeviceInfo) (flashName : String) :
    List UmountPart :=
  (bdi.devices.foldl (umountPlanAmendedStep bdi flashName) []).reverse

/-- Example disk carrying two partitions overmounted at the same
mount point (an overmount: /proc/mounts lists a mount point once per
mount, so two partitions of one disk can share it). -/
def sdbDev : Device :=
  { name := "sdb", devPath := "/dev/sdb", parent := none, mount := none }

/-- First partition mounted at /data. -/
def sdb1Dev : Device :=
  { name := "sdb1", devPath := "/dev/sdb1", parent := some "/dev/sdb",
    mount := some { mountpoint := ["data"], fsType := "ext4" } }

/-- Second partition overmounted at /data. -/
def sdb2Dev : Device :=
  { name := "sdb2", devPath := "/dev/sdb2", parent := some "/dev/sdb",
    mount := some { mountpoint := ["data"], fsType := "ext4" } }

/-- Inventory with an overmount: both partitions of sdb are mounted
at /data. -/
def dupBdi : BlockDeviceInfo :=
  { devices := [("/dev/sdb", sdbDev), ("/dev/sdb1", sdb1Dev), ("/dev/sdb2", sdb2Dev)],
    rootDevice := sdbDev }

/-- The happy environment with a telinit that launches but exits
non-zero. -/
def telinitFailEnv : Env :=
  { happyEnv exBdi with telinitRes := Except.ok { success := false, stderr := "E" } }

/-- The happy environment with the flash device path absent: every
path exists except /dev/sda, the device path of the designated root
device of exBdi. -/
def noDevEnv : Env :=
  { happyEnv exBdi with fileExists := fun q => !(q == "/dev/sda") }

/-- The happy environment with almost no free memory. -/
def lowMemEnv : Env :=
  { happyEnv exBdi with memInfoRes := Except.ok (0, 0) }

/-- Example options with the required image parameter absent. -/
def noImageOpts : Options := { exOpts with image := none }

/-- The run state reached by a happy run right before the final
phase: the six pseudo-filesystem mounts on the stack and the staging
trace of mounts and copies. -/
def midAcc : Acc :=
  { stack := [("/TO.AAAAAAAA/dev/pts", "devpts"), ("/TO.AAAAAAAA/dev", "devtmpfs"),
      ("/TO.AAAAAAAA/sys", "sysfs"), ("/TO.AAAAAAAA/tmp", "tmpfs"),
      ("/TO.AAAAAAAA/proc", "proc"), ("/TO.AAAAAAAA", "tmpfs")],
    events := [Event.swapoffAttempt, Event.mkdirEv "/TO.AAAAAAAA",
      Event.mountEv "/TO.AAAAAAAA" "tmpfs", Event.mkdirEv "/TO.AAAAAAAA/etc",
      Event.symlinkEv "/proc/mounts" "/TO.AAAAAAAA/etc/mtab",
      Event.mountEv "/TO.AAAAAAAA/proc" "proc", Event.mountEv "/TO.AAAAAAAA/tmp" "tmpfs",
      Event.mountEv "/TO.AAAAAAAA/sys" "sysfs", Event.mountEv "/TO.AAAAAAAA/dev" "devtmpfs",
      Event.mountEv "/TO.AAAAAAAA/dev/pts" "devpts",
      Event.mkdirEv "/TO.AAAAAAAA/mnt/old_root", Event.mkdirEv "/TO.AAAAAAAA/transfer",
      Event.copyEv "busybox" "/TO.AAAAAAAA/busybox",
      Event.copyEv "/tmp/os.img" "/TO.AAAAAAAA/transfer/balena.img",
      Event.copyEv "/tmp/c.json" "/TO.AAAAAAAA/transfer/config.json",
      Event.mkdirEv "/TO.AAAAAAAA/transfer/system-connections",
      Event.copyEv "/etc/nm/wired" "/TO.AAAAAAAA/transfer/system-connections/balena-01",
      Event.copyEv "/usr/bin/takeover" "/TO.AAAAAAAA/takeover"] }

/-- The result of a prepare run is an error of the branches the spec
calls MissingInput. -/
def failsMissingInput : Except MigError Unit → Bool
  | Except.error e => isMissingInput e
  | Except.ok _ => false

/-- The message of the memory-gate error (stage1.rs lines 228-233),
the branch the spec calls InsufficientMemory. -/
def insufficientMemoryMsg : String :=
  "Not enough memory space found to copy files to RAMFS"

/-- A Stage-1 computation that only ever appends to the event trace. -/
def EvMono {α : Type} (m : Step α) : Prop :=
  ∀ s : Acc, ∃ t, ((m s).2).events = s.events ++ t

/-- A well-behaved Stage-1 computation: it only ever appends to the
event trace, and it never raises the memory-gate error (that error
has exactly one site, the gate of prepare). -/
def Tame {α : Type} (m : Step α) : Prop :=
  ∀ s : Acc,
    (∃ t, ((m s).2).events = s.events ++ t) ∧
    ∀ e, (m s).1 = Except.error e → e ≠ MigError.displayed insufficientMemoryMsg

/-! ## Path and unmount-plan lemmas -/

theorem pathLe_refl (a : List String) : pathLe a a = true := by
  induction a with
  | nil => rfl
  | cons x xs ih => simp [pathLe, ih]

theorem pathLe_trans {a b c : List String} (h1 : pathLe a b = true)
    (h2 : pathLe b c = true) : pathLe a c = true := by
  induction a generalizing b c with
  | nil => rfl
  | cons x xs ih =>
    cases b with
    | nil => simp [pathLe] at h1
    | cons y ys =>
      cases c with
      | nil => simp [pathLe] at h2
      | cons z zs =>
        simp only [pathLe, Bool.and_eq_true, beq_iff_eq] at h1 h2 ⊢
        exact ⟨h1.1.trans h2.1, ih h1.2 h2.2⟩

theorem pathLe_antisymm {a b : List String} (h1 : pathLe a b = true)
    (h2 : pathLe b a = true) : a = b := by
  induction a generalizing b with
  | nil =>
    cases b with
    | nil => rfl
    | cons y ys => simp [pathLe] at h2
  | cons x xs ih =>
    cases b with
    | nil => simp [pathLe] at h1
    | cons y ys =>
      simp only [pathLe, Bool.and_eq_true, beq_iff_eq] at h1 h2
      exact congrArg₂ (· :: ·) h1.1 (ih h1.2 h2.2)

theorem pathLt_eq_true {a b : List String} :
    pathLt a b = true ↔ (pathLe a b = true ∧ a ≠ b) := by
  simp [pathLt, Bool.and_eq_true]

theorem eq_of_pathLt_false_of_le {a b : List String}
    (h1 : pathLt a b = false) (h2 : pathLe a b = true) : a = b := by
  simp only [pathLt, h2, Bool.true_and, Bool.not_eq_false', beq_iff_eq] at h1
  exact h1

theorem insertUmountPart_eq_insertBeforeFirstDeeper
    (parts : List UmountPart) (p : UmountPart) :
    insertUmountPart parts p = insertBeforeFirstDeeper parts p := by
  induction parts with
  | nil => rfl
  | cons q rest ih =>
    cases h : pathLe p.mountpoint q.mountpoint with
    | true =>
      simp [insertUmountPart, insertBeforeFirstDeeper, List.findIdx_cons, h]
    | false =>
      simp only [insertUmountPart, insertBeforeFirstDeeper, List.findIdx_cons, h,
        Bool.false_eq_true, if_false, cond_false, List.take_succ_cons,
        List.drop_succ_cons, List.cons_append, ih]

theorem mem_insertUmountPart {parts : List UmountPart} {p x : UmountPart}
    (h : x ∈ insertUmountPart parts p) : x ∈ parts ∨ x = p := by
  induction parts with
  | nil =>
    simp only [insertUmountPart, List.mem_singleton] at h
    exact Or.inr h
  | cons q rest ih =>
    unfold insertUmountPart at h
    by_cases hc : pathLe p.mountpoint q.mountpoint = true
    · rw [if_pos hc] at h
      rcases List.mem_cons.mp h with h2 | h2
      · exact Or.inr h2
      · exact Or.inl h2
    · rw [if_neg hc] at h
      rcases List.mem_cons.mp h with h2 | h2
      · exact Or.inl (h2 ▸ List.mem_cons_self q rest)
      · rcases ih h2 with h3 | h3
        · exact Or.inl (List.mem_cons_of_mem q h3)
        · exact Or.inr h3

theorem insertUmountPart_preInv {l : List UmountPart} {p : UmountPart}
    (h : preInv l) : preInv (insertUmountPart l p) := by
  induction l with
  | nil =>
    simp [preInv, insertUmountPart]
  | cons q rest ih =>
    have hq : ∀ b ∈ rest, pathLt b.mountpoint q.mountpoint = false :=
      (List.pairwise_cons.mp h).1
    have hrest : preInv rest := (List.pairwise_cons.mp h).2
    unfold insertUmountPart
    by_cases hc : pathLe p.mountpoint q.mountpoint = true
    · rw [if_pos hc]
      rw [preInv, List.pairwise_cons]
      refine ⟨?_, h⟩
      intro b hb
      by_contra habs
      rw [Bool.not_eq_false, pathLt_eq_true] at habs
      obtain ⟨hble, hbne⟩ := habs
      rcases List.mem_cons.mp hb with rfl | hbr
      · exact hbne (pathLe_antisymm hble hc)
      · have hble2 : pathLe b.mountpoint q.mountpoint = true :=
          pathLe_trans hble hc
        have heq : b.mountpoint = q.mountpoint :=
          eq_of_pathLt_false_of_le (hq b hbr) hble2
        rw [heq] at hble
        exact hbne (heq.trans (pathLe_antisymm hble hc))
    · rw [if_neg hc]
      rw [preInv, List.pairwise_cons]
      constructor
      · intro b hb
        rcases mem_insertUmountPart hb with hbr | rfl
        · exact hq b hbr
        · by_contra habs
          rw [Bool.not_eq_false, pathLt_eq_true] at habs
          exact hc habs.1
      · exact ih hrest

theorem foldl_umountPlanStep_preInv (bdi : BlockDeviceInfo)
    (flashName : String) (l : List (String × Device))
    (acc : List UmountPart) (h : preInv acc) :
    preInv (l.foldl (umountPlanStep bdi flashName) acc) := by
  induction l generalizing acc with
  | nil => exact h
  | cons kv rest ih =>
    refine ih _ ?_
    unfold umountPlanStep
    rcases parentNameOf bdi kv.2 with _ | pname
    · exact h
    · dsimp only
      by_cases hc : (pname == flashName) = true
      · rw [if_pos hc]
        rcases kv.2.mount with _ | m
        · exact h
        · exact insertUmountPart_preInv h
      · rw [if_neg hc]
        exact h

theorem umountPlan_noShadow (bdi : BlockDeviceInfo) (flashName : String) :
    noShadow (umountPlan bdi flashName) := by
  unfold umountPlan noShadow
  rw [List.pairwise_reverse]
  exact foldl_umountPlanStep_preInv bdi flashName bdi.devices [] (by simp [preInv])

/-! ## Step-level lemmas -/

theorem Step.bind_apply {α β : Type} (m : Step α) (f : α → Step β) (s : Acc) :
    (m >>= f) s =
      match m s with
      | (Except.ok a, s1) => f a s1
      | (Except.error e, s1) => (Except.error e, s1) := rfl

theorem Step.pure_apply {α : Type} (a : α) (s : Acc) :
    (pure a : Step α) s = (Except.ok a, s) := rfl

theorem Step.emit_apply (e : Event) (s : Acc) :
    Step.emit e s = (Except.ok (), { s with events := s.events ++ [e] }) := rfl

theorem Step.fail_apply {α : Type} (e : MigError) (s : Acc) :
    (Step.fail e : Step α) s = (Except.error e, s) := rfl

theorem tame_pure {α : Type} (a : α) : Tame (pure a : Step α) := by
  intro s
  exact ⟨⟨[], (List.append_nil _).symm⟩, fun e h => Except.noConfusion h⟩

theorem tame_fail {α : Type} {e0 : MigError}
    (hne : e0 ≠ MigError.displayed insufficientMemoryMsg) :
    Tame (Step.fail e0 : Step α) := by
  intro s
  refine ⟨⟨[], (List.append_nil _).symm⟩, fun e h => ?_⟩
  cases h
  exact hne

theorem tame_emit (ev : Event) : Tame (Step.emit ev) := by
  intro s
  exact ⟨⟨[ev], rfl⟩, fun e h => Except.noConfusion h⟩

theorem tame_bind {α β : Type} {m : Step α} {f : α → Step β}
    (hm : Tame m) (hf : ∀ a, Tame (f a)) : Tame (m >>= f) := by
  intro s
  rw [Step.bind_apply]
  rcases hres : m s with ⟨r, s1⟩
  have hms := hm s
  rw [hres] at hms
  cases r with
  | error e =>
    exact ⟨hms.1, fun e2 h2 => by cases h2; exact hms.2 e rfl⟩
  | ok a =>
    rcases hms.1 with ⟨t1, ht1⟩
    have hfs := hf a s1
    rcases hfs.1 with ⟨t2, ht2⟩
    refine ⟨⟨t1 ++ t2, ?_⟩, hfs.2⟩
    rw [ht2, ht1, List.append_assoc]

theorem tame_ofRes {α : Type} (msg : String) (r : Except Unit α) :
    Tame (Step.ofRes msg r) := by
  cases r with
  | error u => exact tame_fail (fun h => MigError.noConfusion h)
  | ok a => exact tame_pure a

theorem tame_mount_fs (env : Env) (mp fs : String) :
    Tame (mount_fs env mp fs) := by
  intro s
  unfold mount_fs
  by_cases h : env.mountOk mp fs = true
  · rw [if_pos h]
    exact ⟨⟨[Event.mountEv mp fs], rfl⟩, fun e h2 => Except.noConfusion h2⟩
  · rw [if_neg h]
    exact ⟨⟨[], (List.append_nil _).symm⟩,
      fun e h2 => by cases h2; exact fun h3 => MigError.noConfusion h3⟩

theorem tame_createDirStep (env : Env) (p : String) :
    Tame (createDirStep env p) := by
  unfold createDirStep
  by_cases h : env.createDirOk p = true
  · rw [if_pos h]; exact tame_emit _
  · rw [if_neg h]; exact tame_fail (fun h2 => MigError.noConfusion h2)

theorem tame_copyStep (env : Env) (src dst : String) :
    Tame (copyStep env src dst) := by
  unfold copyStep
  by_cases h : env.copyOk src dst = true
  · rw [if_pos h]; exact tame_emit _
  · rw [if_neg h]; exact tame_fail (fun h2 => MigError.noConfusion h2)

theorem tame_create_nwmgr_file (env : Env) (p : String) (i : Nat) :
    Tame (create_nwmgr_file env p i) := by
  unfold create_nwmgr_file
  by_cases h : env.wifiWriteOk = true
  · rw [if_pos h]; exact tame_emit _
  · rw [if_neg h]; exact tame_fail (fun h2 => MigError.noConfusion h2)

theorem tame_copyNwmgrFiles (env : Env) (p : String) (files : List String)
    (n : Nat) : Tame (copyNwmgrFiles env p files n) := by
  induction files generalizing n with
  | nil => exact tame_pure _
  | cons f rest ih =>
    exact tame_bind (tame_copyStep env f _) (fun _ => ih (n + 1))

theorem tame_writeWifiFiles (env : Env) (p : String) (count : Nat)
    (wifis : List Wifi) : Tame (writeWifiFiles env p count wifis) := by
  induction wifis with
  | nil => exact tame_pure _
  | cons w rest ih =>
    exact tame_bind (tame_create_nwmgr_file env p count) (fun _ => ih)

theorem tame_copy_files (migInfo : MigrateInfo) (dir : String) (env : Env) :
    Tame (copy_files migInfo dir env) := by
  unfold copy_files
  refine tame_bind (tame_createDirStep _ _) (fun _ => ?_)
  refine tame_bind ?_ (fun _ => ?_)
  · by_cases h : env.assetsWriteOk = true
    · rw [if_pos h]; exact tame_emit _
    · rw [if_neg h]; exact tame_fail (fun h2 => MigError.noConfusion h2)
  refine tame_bind (tame_copyStep _ _ _) (fun _ => ?_)
  refine tame_bind (tame_copyStep _ _ _) (fun _ => ?_)
  refine tame_bind (tame_createDirStep _ _) (fun _ => ?_)
  refine tame_bind (tame_copyNwmgrFiles _ _ _ _) (fun count => ?_)
  refine tame_bind (tame_writeWifiFiles _ _ _ _) (fun _ => ?_)
  cases env.currentExe with
  | error u => exact tame_fail (fun h2 => MigError.noConfusion h2)
  | ok exePath => exact tame_copyStep _ _ _

theorem tame_devPhase (env : Env) (dir : String) :
    Tame (devPhase env dir) := by
  intro s
  unfold devPhase
  rcases hres : mount_fs env (pjoin dir "dev") "devtmpfs" s with ⟨r, s1⟩
  have hm := tame_mount_fs env (pjoin dir "dev") "devtmpfs" s
  rw [hres] at hm
  cases r with
  | ok a =>
    exact ⟨hm.1, fun e h2 => Except.noConfusion h2⟩
  | error e0 =>
    have hfall :
        Tame (do
          mount_fs env (pjoin dir "dev") "tmpfs"
          (match env.cpDevRes with
           | Except.error _ => Step.fail (MigError.upstream "cp command failed")
           | Except.ok res =>
             if res.success then
               Step.emit (Event.copyEv "/dev/*" (pjoin dir "dev"))
             else Step.fail (MigError.displayed "Failed to copy /dev file system"))
          (if env.removeDirOk then pure ()
           else Step.fail (MigError.upstream "Failed to delete directory"))) := by
      refine tame_bind (tame_mount_fs _ _ _) (fun _ => ?_)
      refine tame_bind ?_ (fun _ => ?_)
      · cases env.cpDevRes with
        | error u => exact tame_fail (fun h2 => MigError.noConfusion h2)
        | ok res =>
          dsimp only
          by_cases h : res.success = true
          · rw [if_pos h]; exact tame_emit _
          · rw [if_neg h]
            refine tame_fail (fun h2 => ?_)
            rw [MigError.displayed.injEq] at h2
            exact absurd h2 (by decide)
      · by_cases h : env.removeDirOk = true
        · rw [if_pos h]; exact tame_pure _
        · rw [if_neg h]; exact tame_fail (fun h2 => MigError.noConfusion h2)
    exact hfall s

theorem tame_mktempStep (env : Env) : Tame (mktempStep env) := by
  unfold mktempStep
  cases env.mktempRes with
  | error u => exact tame_fail (fun h2 => MigError.noConfusion h2)
  | ok d => exact tame_pure d

theorem tame_memInfoStep (env : Env) : Tame (memInfoStep env) := by
  unfold memInfoStep
  cases env.memInfoRes with
  | error u => exact tame_fail (fun h2 => MigError.noConfusion h2)
  | ok mi => exact tame_pure mi

theorem tame_selectFlashStep (opts : Options) (bdi : BlockDeviceInfo) :
    Tame (selectFlashStep opts bdi) := by
  unfold selectFlashStep selectFlashDev
  cases opts.flashTo with
  | none => exact tame_pure _
  | some name =>
    dsimp only
    cases lookupDevice bdi name with
    | none =>
      refine tame_fail (fun h2 => ?_)
      rw [MigError.displayed.injEq] at h2
      exact absurd h2 (by decide)
    | some d => exact tame_pure d

theorem tame_mountPhase (env : Env) : Tame (mountPhase env) := by
  unfold mountPhase
  refine tame_bind (tame_mktempStep env) (fun dir => ?_)
  refine tame_bind (tame_emit _) (fun _ => ?_)
  refine tame_bind (tame_mount_fs _ _ _) (fun _ => ?_)
  refine tame_bind (tame_createDirStep _ _) (fun _ => ?_)
  refine tame_bind ?_ (fun _ => ?_)
  · by_cases h : env.symlinkOk = true
    · rw [if_pos h]; exact tame_emit _
    · rw [if_neg h]; exact tame_fail (fun h2 => MigError.noConfusion h2)
  refine tame_bind (tame_mount_fs _ _ _) (fun _ => ?_)
  refine tame_bind (tame_mount_fs _ _ _) (fun _ => ?_)
  refine tame_bind (tame_mount_fs _ _ _) (fun _ => ?_)
  refine tame_bind (tame_devPhase _ _) (fun _ => ?_)
  refine tame_bind (tame_mount_fs _ _ _) (fun _ => ?_)
  exact tame_bind (tame_createDirStep _ _) (fun _ => tame_pure _)

theorem tame_finalPhase (opts : Options) (migInfo : MigrateInfo) (env : Env)
    (dir : String) : Tame (finalPhase opts migInfo env dir) := by
  unfold finalPhase
  refine tame_bind (tame_ofRes _ _) (fun _tty => ?_)
  refine tame_bind (tame_ofRes _ _) (fun oldInit => ?_)
  refine tame_bind ?_ (fun _ => ?_)
  · by_cases h : env.stage2ScriptOk = true
    · rw [if_pos h]; exact tame_emit _
    · rw [if_neg h]; exact tame_fail (fun h2 => MigError.noConfusion h2)
  refine tame_bind (tame_ofRes _ _) (fun bdi => ?_)
  refine tame_bind (tame_selectFlashStep opts bdi) (fun flashDev => ?_)
  refine tame_bind ?_ (fun _ => ?_)
  · by_cases h : env.fileExists flashDev.devPath = true
    · rw [if_pos h]; exact tame_pure _
    · rw [if_neg h]
      refine tame_fail (fun h2 => ?_)
      rw [MigError.displayed.injEq] at h2
      exact absurd h2 (by decide)
  refine tame_bind ?_ (fun _ => ?_)
  · by_cases h : env.openCfgOk = true
    · rw [if_pos h]; exact tame_pure _
    · rw [if_neg h]; exact tame_fail (fun h2 => MigError.noConfusion h2)
  refine tame_bind (tame_ofRes _ _) (fun _txt => ?_)
  refine tame_bind ?_ (fun _ => ?_)
  · by_cases h : env.writeCfgOk = true
    · rw [if_pos h]; exact tame_emit _
    · rw [if_neg h]; exact tame_fail (fun h2 => MigError.noConfusion h2)
  refine tame_bind ?_ (fun _ => ?_)
  · by_cases h : env.setCurrentDirOk = true
    · rw [if_pos h]; exact tame_pure _
    · rw [if_neg h]; exact tame_fail (fun h2 => MigError.noConfusion h2)
  refine tame_bind (tame_ofRes _ _) (fun bindRes => ?_)
  refine tame_bind ?_ (fun _ => ?_)
  · by_cases h : bindRes.success = true
    · rw [if_pos h]; exact tame_emit _
    · rw [if_neg h]
      refine tame_fail (fun h2 => ?_)
      rw [MigError.displayed.injEq] at h2
      exact absurd h2 (by decide)
  refine tame_bind (tame_ofRes _ _) (fun telinitRes => ?_)
  refine tame_bind (tame_emit _) (fun _ => ?_)
  by_cases h : telinitRes.success = true
  · rw [if_pos h]; exact tame_pure _
  · rw [if_neg h]
    refine tame_fail (fun h2 => ?_)
    rw [MigError.displayed.injEq] at h2
    exact absurd h2 (by decide)

theorem tame_buildAndFinish (opts : Options) (migInfo : MigrateInfo)
    (env : Env) : Tame (buildAndFinish opts migInfo env) := by
  unfold buildAndFinish
  refine tame_bind (tame_mountPhase env) (fun dir => ?_)
  exact tame_bind (tame_copy_files _ _ _) (fun _ => tame_finalPhase _ _ _ _)

theorem tame_swapCheck (env : Env) : Tame (swapCheck env) := by
  unfold swapCheck
  cases env.swapoffRes with
  | error u => exact tame_pure _
  | ok res =>
    dsimp only
    by_cases h : res.success = true
    · rw [if_pos h]; exact tame_pure _
    · rw [if_neg h]
      refine tame_fail (fun h2 => ?_)
      rw [MigError.displayed.injEq] at h2
      exact absurd h2 (by decide)

theorem get_required_space_ne_mem {opts : Options} {migInfo : MigrateInfo}
    {env : Env} {e : MigError}
    (h : get_required_space opts migInfo env = Except.error e) :
    e ≠ MigError.displayed insufficientMemoryMsg := by
  intro he
  subst he
  unfold get_required_space at h
  repeat' split at h
  all_goals
    first
      | exact Except.noConfusion h
      | (rw [Except.error.injEq] at h
         first
           | exact MigError.noConfusion h
           | (rw [MigError.displayed.injEq] at h
              exact absurd h (by decide)))

theorem tame_reqSpaceStep (opts : Options) (migInfo : MigrateInfo) (env : Env) :
    Tame (reqSpaceStep opts migInfo env) := by
  unfold reqSpaceStep
  cases hr : get_required_space opts migInfo env with
  | error e => exact tame_fail (get_required_space_ne_mem hr)
  | ok r => exact tame_pure r

theorem Tame.evMono {α : Type} {m : Step α} (h : Tame m) : EvMono m :=
  fun s => (h s).1

theorem evMono_pure {α : Type} (a : α) : EvMono (pure a : Step α) :=
  fun _ => ⟨[], (List.append_nil _).symm⟩

theorem evMono_fail {α : Type} (e : MigError) : EvMono (Step.fail e : Step α) :=
  fun _ => ⟨[], (List.append_nil _).symm⟩

theorem evMono_bind {α β : Type} {m : Step α} {f : α → Step β}
    (hm : EvMono m) (hf : ∀ a, EvMono (f a)) : EvMono (m >>= f) := by
  intro s
  rw [Step.bind_apply]
  rcases hres : m s with ⟨r, s1⟩
  have hms := hm s
  rw [hres] at hms
  cases r with
  | error e => exact hms
  | ok a =>
    rcases hms with ⟨t1, ht1⟩
    rcases hf a s1 with ⟨t2, ht2⟩
    exact ⟨t1 ++ t2, by rw [ht2, ht1, List.append_assoc]⟩

theorem evMono_prepareAfterSwap (opts : Options) (migInfo : MigrateInfo)
    (env : Env) : EvMono (prepareAfterSwap opts migInfo env) := by
  unfold prepareAfterSwap
  refine evMono_bind (tame_memInfoStep env).evMono (fun memInfo => ?_)
  refine evMono_bind (tame_reqSpaceStep opts migInfo env).evMono (fun reqSpace => ?_)
  refine evMono_bind ?_ (fun _ => (tame_buildAndFinish opts migInfo env).evMono)
  by_cases h : memInfo.2 < reqSpace + XTRA_FS_SIZE
  · rw [if_pos h]; exact evMono_fail _
  · rw [if_neg h]; exact evMono_pure _

theorem runPrepare_eq_afterSwap (opts : Options) (migInfo : MigrateInfo)
    (env : Env) (hsw : swapPasses env = true) :
    runPrepare opts migInfo env =
      prepareAfterSwap opts migInfo env
        { stack := [], events := [Event.swapoffAttempt] } := by
  unfold runPrepare prepare swapCheck
  unfold swapPasses at hsw
  cases hres : env.swapoffRes with
  | error u => rfl
  | ok res =>
    rw [hres] at hsw
    dsimp only at hsw
    dsimp only
    rw [hsw]
    rfl

theorem get_required_space_missing {opts : Options} {migInfo : MigrateInfo}
    {env : Env}
    (h : imageMissing opts env = true ∨
      (imageSizeKnown opts env = true ∧ configMissing opts env = true)) :
    ∃ e, get_required_space opts migInfo env = Except.error e ∧
      isMissingInput e = true := by
  unfold imageMissing imageSizeKnown configMissing at h
  unfold get_required_space
  cases hi : opts.image with
  | none => exact ⟨_, rfl, by decide⟩
  | some p =>
    rw [hi] at h
    dsimp only at h ⊢
    cases hex : env.fileExists p with
    | false =>
      simp only [hex, Bool.not_false, if_true]
      exact ⟨_, rfl, by decide⟩
    | true =>
      rw [hex] at h
      simp only [Bool.not_true, Bool.false_eq_true, false_or] at h
      obtain ⟨hsz, hcfg⟩ := h
      simp only [hex, Bool.not_true, Bool.false_eq_true, if_false]
      cases hs : env.fileSize p with
      | error u =>
        rw [hs] at hsz
        dsimp only at hsz
        exact absurd hsz (by decide)
      | ok isz =>
        rw [hs] at hsz
        simp only [hs]
        cases hc : opts.config with
        | none => exact ⟨_, rfl, by decide⟩
        | some cp =>
          rw [hc] at hcfg
          dsimp only at hcfg
          cases hcex : env.fileExists cp with
          | false =>
            simp only [hcex, Bool.not_false, if_true]
            exact ⟨_, rfl, by decide⟩
          | true => rw [hcex] at hcfg; exact absurd hcfg (by decide)

theorem umountPlanStep_eq_amended (bdi : BlockDeviceInfo) (flashName : String)
    (acc : List UmountPart) (kv : String × Device) :
    umountPlanStep bdi flashName acc kv =
      umountPlanAmendedStep bdi flashName acc kv := by
  unfold umountPlanStep umountPlanAmendedStep
  cases parentNameOf bdi kv.2 with
  | none => rfl
  | some pname =>
    dsimp only
    by_cases h : (pname == flashName) = true
    · rw [if_pos h, if_pos h]
      cases kv.2.mount with
      | none => rfl
      | some m => exact insertUmountPart_eq_insertBeforeFirstDeeper _ _
    · rw [if_neg h, if_neg h]

theorem foldl_umountPlanStep_eq_amended (bdi : BlockDeviceInfo)
    (flashName : String) :
    ∀ (l : List (String × Device)) (acc : List UmountPart),
      l.foldl (umountPlanStep bdi flashName) acc =
        l.foldl (umountPlanAmendedStep bdi flashName) acc := by
  intro l
  induction l with
  | nil => intro acc; rfl
  | cons kv rest ih =>
    intro acc
    rw [List.foldl_cons, List.foldl_cons, umountPlanStep_eq_amended, ih]

set_option maxHeartbeats 3200000 in
theorem happyRun_eq_finalPhase (bdi : BlockDeviceInfo) (fto : Option String) :
    runPrepare { exOpts with flashTo := fto } exMigInfo (happyEnv bdi) =
      finalPhase { exOpts with flashTo := fto } exMigInfo (happyEnv bdi)
        "/TO.AAAAAAAA" midAcc := rfl

set_option maxHeartbeats 3200000 in
theorem flashSelRoot (bdi : BlockDeviceInfo) :
    (writtenCfg (runPrepare exOpts exMigInfo (happyEnv bdi)).2.events).map
      (fun c => c.flashDev) = some bdi.rootDevice.devPath := rfl

set_option maxHeartbeats 3200000 in
theorem flashSelNamed (bdi : BlockDeviceInfo) (name : String) (d : Device)
    (h : lookupDevice bdi name = some d) :
    (writtenCfg (runPrepare { exOpts with flashTo := some name } exMigInfo
        (happyEnv bdi)).2.events).map (fun c => c.flashDev) = some d.devPath := by
  rw [happyRun_eq_finalPhase bdi (some name)]
  simp only [finalPhase, selectFlashStep, selectFlashDev, happyEnv, Step.ofRes,
    Step.bind_apply, Step.pure_apply, Step.emit_apply, Step.fail_apply, h]
  rfl

set_option maxHeartbeats 3200000 in
theorem flashSelMissing (bdi : BlockDeviceInfo) (name : String)
    (h : lookupDevice bdi name = none) :
    (runPrepare { exOpts with flashTo := some name } exMigInfo (happyEnv bdi)).1 =
      Except.error (MigError.displayed "Could not find configured flash device") ∧
    hasBindMount (runPrepare { exOpts with flashTo := some name } exMigInfo
        (happyEnv bdi)).2.events = false := by
  rw [happyRun_eq_finalPhase bdi (some name)]
  simp only [finalPhase, selectFlashStep, selectFlashDev, happyEnv, Step.ofRes,
    Step.bind_apply, Step.pure_apply, Step.emit_apply, Step.fail_apply, h]
  constructor
  · rfl
  · rfl

set_option maxHeartbeats 1600000 in
theorem flashSelNoDev :
    (runPrepare exOpts exMigInfo noDevEnv).1 =
      Except.error (MigError.displayed "The device could not be found") ∧
    hasBindMount (runPrepare exOpts exMigInfo noDevEnv).2.events = false :=
  ⟨rfl, rfl⟩

/-! ## The claims -/

set_option maxHeartbeats 1600000 in
/-- Claim C1, counterexample: in a run where the init bind-mount
succeeds and the subsequent telinit call returns non-zero status,
stage1 does NOT return Ok, and unmounting of the mount stack DOES
occur (the cleanup path runs umount_all), contrary to the claim. -/
theorem c1_telinit_failure_counterexample :
    (stage1 true exOpts telinitFailEnv).1 ≠ Except.ok () ∧
    (stage1 true exOpts telinitFailEnv).2.any isUmountEv = true :=
  ⟨fun h => Except.noConfusion h, rfl⟩

set_option maxHeartbeats 1600000 in
/-- Claim C1, amended: if the bind-mount of the new init over the old
init succeeds but the telinit call returns non-zero status, the
failure is reported (prepare returns the telinit error), the
bind-mount itself is not undone (it is not on the mount stack; the
cleanup unmounts exactly the six recorded pseudo-filesystem mounts,
deepest first), but the orchestrator stage1 runs cleanup and returns
the error rather than success. -/
theorem c1_telinit_failure_amended :
    (stage1 true exOpts telinitFailEnv).1 =
      Except.error (MigError.displayed "Call to telinit failed") ∧
    (stage1 true exOpts telinitFailEnv).2.filter isUmountEv =
      [Event.umountEv "/TO.AAAAAAAA/dev/pts", Event.umountEv "/TO.AAAAAAAA/dev",
       Event.umountEv "/TO.AAAAAAAA/sys", Event.umountEv "/TO.AAAAAAAA/tmp",
       Event.umountEv "/TO.AAAAAAAA/proc", Event.umountEv "/TO.AAAAAAAA"] ∧
    hasBindMount (stage1 true exOpts telinitFailEnv).2 = true :=
  ⟨rfl, rfl, rfl⟩

/-- Claim C2, counterexample: on the spec's own E3 inventory (root
partition mounted at /, second partition at /home), the plan the code
builds differs from the plan built with the insertion rule the claim
states (insert before the first existing entry whose mount point is a
prefix of the new entry's mount point): the code tests the opposite
direction, existing.starts_with(new). -/
theorem c2_insertion_rule_counterexample :
    umountPlan exBdi "sda" =
      [{ devName := "/dev/sda2", mountpoint := ["home"], fsType := "ext4" },
       { devName := "/dev/sda1", mountpoint := [], fsType := "ext4" }] ∧
    umountPlanClaim exBdi "sda" =
      [{ devName := "/dev/sda1", mountpoint := [], fsType := "ext4" },
       { devName := "/dev/sda2", mountpoint := ["home"], fsType := "ext4" }] ∧
    umountPlan exBdi "sda" ≠ umountPlanClaim exBdi "sda" :=
  ⟨by decide, by decide, by decide⟩

/-- Claim C2, amended: the unmount-plan builder inserts each new
UmountPart immediately before the first existing entry whose mount
point the new entry's mount point is a prefix of (that is, the first
existing entry lying at or below the new mount point), appends when
no such entry exists, and reverses the list after the walk. -/
theorem c2_insertion_rule_amended :
    ∀ (bdi : BlockDeviceInfo) (flashName : String),
      umountPlan bdi flashName = umountPlanAmended bdi flashName := by
  intro bdi flashName
  unfold umountPlan umountPlanAmended
  rw [foldl_umountPlanStep_eq_amended]

/-- Claim C3, counterexample: with two partitions of the flash device
overmounted at the same mount point /data, the produced plan has a
first entry whose mount point is a (non-strict) prefix of the later
entry's mount point, so the claim as stated fails. -/
theorem c3_umount_ordering_counterexample :
    ¬ List.Pairwise
        (fun a b => ¬ (pathLe a.mountpoint b.mountpoint = true))
        (umountPlan dupBdi "sdb") := by
  decide

/-- Claim C3, amended: for every block-device inventory and chosen
flash device, no entry's mount point is a STRICT prefix (a prefix of
a different mount point) of any later entry's mount point;
equivalently, if mount point A is a strict prefix of mount point B,
then B appears before A. -/
theorem c3_umount_ordering_amended :
    ∀ (bdi : BlockDeviceInfo) (flashName : String),
      noShadow (umountPlan bdi flashName) :=
  umountPlan_noShadow

/-- Claim C4, code bug: for N = 1 network-manager file and M = 2
Wi-Fi records the staged directory does NOT contain three files
balena-01..balena-03: the Wi-Fi loop of stage1.rs lines 177-179 never
advances the counter, so every Wi-Fi record is rendered with the same
counter value N and every choice of the Wi-Fi naming function yields
at most N+1 = 2 distinct names (with the spec's continuing-counter
naming the files are balena-01, balena-02, balena-02). -/
theorem c4_connection_numbering_bug :
    stagedConnectionFiles 1 2 wifiFileNameSpec =
      ["balena-01", "balena-02", "balena-02"] ∧
    ∀ f : Nat → String, (stagedConnectionFiles 1 2 f).dedup.length ≤ 2 := by
  constructor
  · decide
  · intro f
    have h1 : stagedConnectionFiles 1 2 f = ["balena-01", f 1, f 1] := rfl
    rw [h1]
    have hone : [f 1].dedup = [f 1] := by
      rw [List.dedup_cons_of_not_mem (List.not_mem_nil _), List.dedup_nil]
    have hxx : [f 1, f 1].dedup = [f 1] := by
      rw [List.dedup_cons_of_mem (List.mem_singleton_self _), hone]
    by_cases h : ("balena-01" : String) ∈ [f 1, f 1]
    · rw [List.dedup_cons_of_mem h, hxx]
      simp
    · rw [List.dedup_cons_of_not_mem h, hxx]
      simp

set_option maxHeartbeats 1600000 in
/-- Claim C5, counterexample: a swapoff invocation that fails to even
launch does NOT make prepare fail: with every other ambient operation
succeeding, prepare runs to completion and returns Ok. -/
theorem c5_swapoff_counterexample :
    (runPrepare exOpts exMigInfo
      { happyEnv exBdi with swapoffRes := Except.error () }).1 = Except.ok () := rfl

/-- Claim C5, amended: a swapoff invocation that runs and returns
non-zero status makes prepare fail (with the swap error and no other
effect than the attempt); a swapoff invocation that fails to even
launch is silently skipped and prepare proceeds with the rest of its
work unchanged. -/
theorem c5_swapoff_amended :
    (∀ (opts : Options) (migInfo : MigrateInfo) (env : Env) (stderr : String),
      env.swapoffRes = Except.ok { success := false, stderr := stderr } →
      runPrepare opts migInfo env =
        (Except.error (MigError.displayed "Failed to disable SWAP"),
          { stack := [], events := [Event.swapoffAttempt] })) ∧
    (∀ (opts : Options) (migInfo : MigrateInfo) (env : Env),
      env.swapoffRes = Except.error () →
      runPrepare opts migInfo env =
        prepareAfterSwap opts migInfo env
          { stack := [], events := [Event.swapoffAttempt] }) := by
  constructor
  · intro opts migInfo env stderr h
    unfold runPrepare prepare swapCheck
    rw [h]
    rfl
  · intro opts migInfo env h
    refine runPrepare_eq_afterSwap opts migInfo env ?_
    unfold swapPasses
    rw [h]

/-- Claim C5, witness: both amended branches at concrete inputs. -/
theorem c5_swapoff_amended_witness :
    runPrepare exOpts exMigInfo
        { happyEnv exBdi with
            swapoffRes := Except.ok { success := false, stderr := "busy" } } =
      (Except.error (MigError.displayed "Failed to disable SWAP"),
        { stack := [], events := [Event.swapoffAttempt] }) ∧
    runPrepare exOpts exMigInfo { happyEnv exBdi with swapoffRes := Except.error () } =
      prepareAfterSwap exOpts exMigInfo
        { happyEnv exBdi with swapoffRes := Except.error () }
        { stack := [], events := [Event.swapoffAttempt] } :=
  ⟨c5_swapoff_amended.1 exOpts exMigInfo _ "busy" rfl,
   c5_swapoff_amended.2 exOpts exMigInfo _ rfl⟩

/-- Claim C6: the required-space figure is busybox counted twice, the
image size, the config size, every network-manager file size, the
current executable's size, plus the fixed 10 MiB slack; and given the
swap step passes, the memory info reads (tot, free) and the required
space computes to req, prepare fails with the InsufficientMemory
error, having performed no mount and created no directory (the trace
is exactly the swapoff attempt and the mount stack is empty), exactly
when free < req + XTRA_FS_SIZE. -/
theorem c6_memory_gate :
    (∀ (opts : Options) (migInfo : MigrateInfo) (env : Env)
        (img cfgp exe : String) (isz csz nsz esz : Nat),
      opts.image = some img → env.fileExists img = true →
      env.fileSize img = Except.ok isz →
      opts.config = some cfgp → env.fileExists cfgp = true →
      env.fileSize cfgp = Except.ok csz →
      sizesOf env opts.nwmgrCfg = Except.ok nsz →
      env.currentExe = Except.ok exe →
      env.fileSize exe = Except.ok esz →
      get_required_space opts migInfo env =
        Except.ok (2 * migInfo.busyboxSize + isz + csz + nsz + esz + XTRA_FS_SIZE)) ∧
    (∀ (opts : Options) (migInfo : MigrateInfo) (env : Env) (tot free req : Nat),
      swapPasses env = true →
      env.memInfoRes = Except.ok (tot, free) →
      get_required_space opts migInfo env = Except.ok req →
      (runPrepare opts migInfo env =
          (Except.error (MigError.displayed insufficientMemoryMsg),
            { stack := [], events := [Event.swapoffAttempt] }) ↔
        free < req + XTRA_FS_SIZE)) := by
  constructor
  · intro opts migInfo env img cfgp exe isz csz nsz esz h1 h2 h3 h4 h5 h6 h7 h8 h9
    simp only [get_required_space, h1, h2, h3, h4, h5, h6, h7, h8, h9,
      Bool.not_true, Bool.false_eq_true, if_false]
    rw [Except.ok.injEq]
    ring
  · intro opts migInfo env tot free req hsw hmem hreq
    constructor
    · intro heq
      by_contra hge
      rw [runPrepare_eq_afterSwap opts migInfo env hsw] at heq
      unfold prepareAfterSwap memInfoStep reqSpaceStep at heq
      rw [hmem, hreq] at heq
      simp only [Step.bind_apply, Step.pure_apply] at heq
      rw [if_neg hge] at heq
      simp only [Step.pure_apply] at heq
      have hfst := congrArg Prod.fst heq
      exact (tame_buildAndFinish opts migInfo env
        { stack := [], events := [Event.swapoffAttempt] }).2 _ hfst rfl
    · intro hlt
      rw [runPrepare_eq_afterSwap opts migInfo env hsw]
      unfold prepareAfterSwap memInfoStep reqSpaceStep
      rw [hmem, hreq]
      simp only [Step.bind_apply, Step.pure_apply]
      rw [if_pos hlt]
      rfl

/-- Claim C6, witness: the formula at the example session (busybox of
1000000 bytes, four files of 4096 bytes), and the gate firing with no
free memory. -/
theorem c6_memory_gate_witness :
    get_required_space exOpts exMigInfo (happyEnv exBdi) =
      Except.ok (2 * 1000000 + 4096 + 4096 + 4096 + 4096 + XTRA_FS_SIZE) ∧
    runPrepare exOpts exMigInfo lowMemEnv =
      (Except.error (MigError.displayed insufficientMemoryMsg),
        { stack := [], events := [Event.swapoffAttempt] }) :=
  ⟨c6_memory_gate.1 exOpts exMigInfo (happyEnv exBdi) "/tmp/os.img" "/tmp/c.json"
      "/usr/bin/takeover" 4096 4096 4096 4096 rfl rfl rfl rfl rfl rfl rfl rfl rfl,
   (c6_memory_gate.2 exOpts exMigInfo lowMemEnv 0 0 12502144 rfl rfl rfl).mpr
     (by decide)⟩

/-- Claim C7: for any Options in which the image path or the config
path is absent (not provided, or the named file does not exist),
given the swap step passes and the memory info is readable, prepare
returns a MissingInput-class error without creating any directory and
without performing any mount (the trace is exactly the swapoff
attempt and the mount stack is empty). -/
theorem c7_missing_input_gate :
    ∀ (opts : Options) (migInfo : MigrateInfo) (env : Env),
      swapPasses env = true →
      (∃ mi, env.memInfoRes = Except.ok mi) →
      (imageMissing opts env = true ∨
        (imageSizeKnown opts env = true ∧ configMissing opts env = true)) →
      failsMissingInput (runPrepare opts migInfo env).1 = true ∧
      (runPrepare opts migInfo env).2 =
        { stack := [], events := [Event.swapoffAttempt] } := by
  intro opts migInfo env hsw hmi hmiss
  rcases hmi with ⟨mi, hmi⟩
  rcases @get_required_space_missing opts migInfo env hmiss with ⟨e, he, hclass⟩
  have hrun : runPrepare opts migInfo env =
      (Except.error e, { stack := [], events := [Event.swapoffAttempt] }) := by
    rw [runPrepare_eq_afterSwap opts migInfo env hsw]
    unfold prepareAfterSwap memInfoStep reqSpaceStep
    rw [hmi, he]
    rfl
  rw [hrun]
  exact ⟨hclass, rfl⟩

/-- Claim C7, witness: options with no image parameter. -/
theorem c7_missing_input_gate_witness :
    failsMissingInput (runPrepare noImageOpts exMigInfo (happyEnv exBdi)).1 = true ∧
    (runPrepare noImageOpts exMigInfo (happyEnv exBdi)).2 =
      { stack := [], events := [Event.swapoffAttempt] } :=
  c7_missing_input_gate noImageOpts exMigInfo (happyEnv exBdi) rfl
    ⟨(2 ^ 34, 2 ^ 33), rfl⟩ (Or.inl rfl)

/-- Claim C8: with every ambient operation succeeding, the flash
device written into the Stage2Config is the inventory's designated
root device when --flash-to is absent, and the explicitly named
device looked up in the inventory otherwise; when the named device is
not in the inventory, or the chosen device's path does not exist,
prepare fails with the corresponding displayed error and the run
never reaches the init bind-mount. -/
theorem c8_flash_device_selection :
    (∀ bdi : BlockDeviceInfo,
      (writtenCfg (runPrepare exOpts exMigInfo (happyEnv bdi)).2.events).map
        (fun c => c.flashDev) = some bdi.rootDevice.devPath) ∧
    (∀ (bdi : BlockDeviceInfo) (name : String) (d : Device),
      lookupDevice bdi name = some d →
      (writtenCfg (runPrepare { exOpts with flashTo := some name } exMigInfo
          (happyEnv bdi)).2.events).map (fun c => c.flashDev) = some d.devPath) ∧
    (∀ (bdi : BlockDeviceInfo) (name : String),
      lookupDevice bdi name = none →
      (runPrepare { exOpts with flashTo := some name } exMigInfo (happyEnv bdi)).1 =
        Except.error (MigError.displayed "Could not find configured flash device") ∧
      hasBindMount (runPrepare { exOpts with flashTo := some name } exMigInfo
          (happyEnv bdi)).2.events = false) ∧
    ((runPrepare exOpts exMigInfo noDevEnv).1 =
        Except.error (MigError.displayed "The device could not be found") ∧
      hasBindMount (runPrepare exOpts exMigInfo noDevEnv).2.events = false) :=
  ⟨flashSelRoot, flashSelNamed, flashSelMissing, flashSelNoDev⟩

/-- Claim C8, witness: the named-device and missing-device branches
at the example inventory. -/
theorem c8_flash_device_selection_witness :
    (writtenCfg (runPrepare { exOpts with flashTo := some "/dev/sda" } exMigInfo
        (happyEnv exBdi)).2.events).map (fun c => c.flashDev) = some "/dev/sda" ∧
    (runPrepare { exOpts with flashTo := some "/dev/sdz" } exMigInfo
        (happyEnv exBdi)).1 =
      Except.error (MigError.displayed "Could not find configured flash device") :=
  ⟨c8_flash_device_selection.2.1 exBdi "/dev/sda" sdaDev rfl,
   (c8_flash_device_selection.2.2.1 exBdi "/dev/sdz" rfl).1⟩

/-- Claim C9: get_required_space is independent of the Wi-Fi record
list; two sessions differing only in their Wi-Fi records yield the
same required-space result. -/
theorem c9_wifi_independence :
    ∀ (opts : Options) (env : Env) (m : MigrateInfo) (w1 w2 : List Wifi),
      get_required_space opts { m with wifis := w1 } env =
        get_required_space opts { m with wifis := w2 } env :=
  fun _ _ _ _ _ => rfl

/-- Claim C10: in every run of prepare, whatever the options, session
state and environment, the very first recorded effect is the
system-wide swapoff attempt; in particular every run that later fails
(missing input, insufficient memory or anything else) has already
attempted to disable swap. -/
theorem c10_swap_before_validation :
    ∀ (opts : Options) (migInfo : MigrateInfo) (env : Env),
      ((runPrepare opts migInfo env).2).events.head? =
        some Event.swapoffAttempt := by
  intro opts migInfo env
  have hm : EvMono (swapCheck env >>= fun _ => prepareAfterSwap opts migInfo env) :=
    evMono_bind (tame_swapCheck env).evMono
      (fun _ => evMono_prepareAfterSwap opts migInfo env)
  have h0 : runPrepare opts migInfo env =
      (swapCheck env >>= fun _ => prepareAfterSwap opts migInfo env)
        { stack := [], events := [Event.swapoffAttempt] } := rfl
  rw [h0]
  rcases hm { stack := [], events := [Event.swapoffAttempt] } with ⟨t, ht⟩
  rw [ht]
  rfl

end Takeover
